import Mathlib

/-!
# Verification of the netdiag concurrent port scanner (src/netdiag/portscan.py)

Shallow embedding of the port-scanning module. The network is abstracted as an
environment (`ScanEnv`): the result of name resolution and, for every port, the
outcome the operating system delivers to the probe. Thread-pool nondeterminism
(the `as_completed` iteration order in `scan_ports`) is modelled by an explicit
`order` list, constrained in the theorems to be a permutation of the requested
port list. Wall-clock fields (`scan_time`) are not modelled.
-/

namespace Netdiag

/-- Outcome the runtime delivers to one `_scan_single_port` probe.

Per the Python documentation of `socket.connect_ex`, errors returned by the
C-level `connect` call (e.g. `ECONNREFUSED` = 111, `ETIMEDOUT` = 110,
`EHOSTUNREACH` = 113 on Linux) are returned as an integer error indicator
(`code n` with `n ≠ 0`); `code 0` is a successful connection.  Python-level
exceptions raised anywhere inside the `try` block — `socket.timeout`
(`timeoutExc`) or any other `Exception`, including a failure to create the
socket at all (`exc`) — are the remaining cases. -/
inductive ConnectOutcome where
  | code : Nat → ConnectOutcome
  | timeoutExc : ConnectOutcome
  | exc : ConnectOutcome
deriving DecidableEq, Repr

/-- Embedding of `_scan_single_port(ip, port, timeout)` (portscan.py lines
125-154).  The `ip`/`port`/`timeout` arguments only select which network
outcome occurs; the classification itself is a pure function of that outcome:
`connect_ex` result `0` → `"open"`, any nonzero result → `"closed"`,
`socket.timeout` → `"filtered"`, any other exception → `"filtered"`.
The function is total and returns a plain string (no error channel): every
exception path in the source is caught inside the function. -/
def scan_single_port : ConnectOutcome → String
  | .code 0 => "open"
  | .code _ => "closed"
  | .timeoutExc => "filtered"
  | .exc => "filtered"

/-- The abstracted environment of one scan invocation: what `gethostbyname`
returns (an error message, or the resolved IP), what outcome each port's probe
observes, and whether the `future.result()` call for a port raises in the
collection loop of `scan_ports` (lines 97-109). -/
structure ScanEnv where
  resolve : Except String String
  probe : Int → ConnectOutcome
  futureExc : Int → Bool

/-- The three accumulation lists of a scan result dict. -/
structure Buckets where
  opens : List Int
  closeds : List Int
  filtereds : List Int
deriving DecidableEq, Repr

/-- One iteration of the result-collection loop of `scan_ports`
(lines 95-109): `future.result()` raising appends to `filtered_ports`,
otherwise the returned status string selects the list. -/
def collectOne (env : ScanEnv) (b : Buckets) (port : Int) : Buckets :=
  if env.futureExc port then
    { b with filtereds := b.filtereds ++ [port] }
  else
    let port_status := scan_single_port (env.probe port)
    if port_status = "open" then { b with opens := b.opens ++ [port] }
    else if port_status = "closed" then { b with closeds := b.closeds ++ [port] }
    else { b with filtereds := b.filtereds ++ [port] }

/-- The whole collection loop of `scan_ports`, iterating in `as_completed`
order (an arbitrary permutation of the submitted ports). -/
def collectAll (env : ScanEnv) (order : List Int) : Buckets :=
  order.foldl (collectOne env) ⟨[], [], []⟩

/-- One iteration of the sequential scan loop of `_scan_port_list`
(lines 247-255): `_scan_single_port` is called directly (it cannot raise),
and its status string selects the list. -/
def collectOneSeq (env : ScanEnv) (b : Buckets) (port : Int) : Buckets :=
  let port_status := scan_single_port (env.probe port)
  if port_status = "open" then { b with opens := b.opens ++ [port] }
  else if port_status = "closed" then { b with closeds := b.closeds ++ [port] }
  else { b with filtereds := b.filtereds ++ [port] }

/-- The sequential scan loop of `_scan_port_list` over `ports_list`. -/
def collectSeq (env : ScanEnv) (ports : List Int) : Buckets :=
  ports.foldl (collectOneSeq env) ⟨[], [], []⟩

/-- Python `list.sort()`: ascending stable sort. -/
def pySort (l : List Int) : List Int :=
  List.insertionSort (· ≤ ·) l

/-- `list(range(start_port, end_port + 1))` (line 79). -/
def portRange (start_port end_port : Int) : List Int :=
  (List.range (end_port - start_port + 1).toNat).map
    (fun (i : Nat) => start_port + (i : Int))

/-- The result dict of `scan_ports` once resolution has succeeded
(lines 63-76): all keys except the unmodelled wall-clock `scan_time`. -/
structure ScanReport where
  success : Bool
  host : String
  target_ip : String
  start_port : Int
  end_port : Int
  open_ports : List Int
  closed_ports : List Int
  filtered_ports : List Int
  total_ports_scanned : Nat
  timeout : Int
  error : Option String
deriving DecidableEq, Repr

/-- The three shapes of dict `scan_ports` can return: the validation-error
dicts (lines 35-51), the resolution-error dict (lines 56-61, which has no
port lists at all), and the report dict. -/
inductive ScanResult where
  | configError (error : String)
  | resolveError (error : String) (host : String)
  | report (r : ScanReport)
deriving DecidableEq, Repr

/-- Embedding of `scan_ports(host, start_port, end_port, timeout, max_threads)`
(lines 12-122).  `env` abstracts the network; `order` is the order in which
`as_completed` yields the futures.  A `max_workers` bound `≤ 0` makes the
`ThreadPoolExecutor` constructor raise `ValueError`, which the outer
`try/except` converts into a report dict with `success = False` and `error`
set (lines 85-119); the port lists stay empty in that case. -/
def scan_ports (host : String) (start_port end_port : Int) (timeout : Int)
    (max_threads : Int) (env : ScanEnv) (order : List Int) : ScanResult :=
  if start_port < 1 ∨ start_port > 65535 then
    .configError "Start port must be between 1 and 65535"
  else if end_port < 1 ∨ end_port > 65535 then
    .configError "End port must be between 1 and 65535"
  else if start_port > end_port then
    .configError "Start port cannot be greater than end port"
  else
    match env.resolve with
    | .error e => .resolveError ("Failed to resolve hostname " ++ host ++ ": " ++ e) host
    | .ok target_ip =>
      let ports_to_scan := portRange start_port end_port
      let actual_threads := min max_threads (ports_to_scan.length : Int)
      if actual_threads ≤ 0 then
        .report { success := false, host := host, target_ip := target_ip,
                  start_port := start_port, end_port := end_port,
                  open_ports := [], closed_ports := [], filtered_ports := [],
                  total_ports_scanned := ports_to_scan.length, timeout := timeout,
                  error := some "Port scanning failed: max_workers must be greater than 0" }
      else
        let b := collectAll env order
        .report { success := true, host := host, target_ip := target_ip,
                  start_port := start_port, end_port := end_port,
                  open_ports := pySort b.opens, closed_ports := pySort b.closeds,
                  filtered_ports := pySort b.filtereds,
                  total_ports_scanned := ports_to_scan.length, timeout := timeout,
                  error := none }

/-- The result dict of `_scan_port_list` once resolution has succeeded
(lines 232-243): like `ScanReport` but without `start_port`/`end_port` keys. -/
structure ListReport where
  success : Bool
  host : String
  target_ip : String
  open_ports : List Int
  closed_ports : List Int
  filtered_ports : List Int
  total_ports_scanned : Nat
  timeout : Int
  error : Option String
deriving DecidableEq, Repr

/-- The two shapes of dict `_scan_port_list` can return. -/
inductive ListScanResult where
  | resolveError (error : String) (host : String)
  | report (r : ListReport)
deriving DecidableEq, Repr

/-- Embedding of `_scan_port_list(host, ports_list, timeout)` (lines 215-268).
The scan loop is sequential and `_scan_single_port` is total, so the
`try/except` around the loop has no failure source: after a successful
resolution the report always comes back with `success = True`. -/
def scan_port_list (host : String) (ports_list : List Int) (timeout : Int)
    (env : ScanEnv) : ListScanResult :=
  match env.resolve with
  | .error e => .resolveError ("Failed to resolve hostname " ++ host ++ ": " ++ e) host
  | .ok target_ip =>
    let b := collectSeq env ports_list
    .report { success := true, host := host, target_ip := target_ip,
              open_ports := pySort b.opens, closed_ports := pySort b.closeds,
              filtered_ports := pySort b.filtereds,
              total_ports_scanned := ports_list.length, timeout := timeout,
              error := none }

/-- The static `common_ports` port→service dict of `scan_common_ports`
(lines 170-191), in insertion order. -/
def common_ports : List (Int × String) :=
  [(21, "FTP"), (22, "SSH"), (23, "Telnet"), (25, "SMTP"), (53, "DNS"),
   (80, "HTTP"), (110, "POP3"), (143, "IMAP"), (443, "HTTPS"), (993, "IMAPS"),
   (995, "POP3S"), (1433, "MSSQL"), (3306, "MySQL"), (3389, "RDP"),
   (5432, "PostgreSQL"), (5900, "VNC"), (6379, "Redis"), (8080, "HTTP-Alt"),
   (8443, "HTTPS-Alt"), (27017, "MongoDB")]

/-- One entry of the `open_services` list built by `scan_common_ports`
(lines 200-207). -/
structure ServiceInfo where
  port : Int
  service : String
  status : String
deriving DecidableEq, Repr

/-- The result of `scan_common_ports`: either the resolution-error dict passed
through from `_scan_port_list`, or its report dict, extended with the
`open_services` key exactly when `success` was true. -/
inductive CommonScanResult where
  | resolveError (error : String) (host : String)
  | report (r : ListReport) (open_services : Option (List ServiceInfo))
deriving DecidableEq, Repr

/-- Embedding of `scan_common_ports(host, timeout)` (lines 157-212): scan the
keys of `common_ports` via `_scan_port_list`; on success annotate each open
port with `common_ports.get(port, 'Unknown')`. -/
def scan_common_ports (host : String) (timeout : Int) (env : ScanEnv) :
    CommonScanResult :=
  let ports_list := common_ports.map (fun kv => kv.1)
  match scan_port_list host ports_list timeout env with
  | .resolveError e h => .resolveError e h
  | .report r =>
    if r.success then
      .report r (some (r.open_ports.map (fun port =>
        { port := port, service := ((common_ports.lookup port).getD "Unknown"),
          status := "open" })))
    else
      .report r none

/-! ## Concrete environments and reports used by the witnesses -/

/-- Environment in which resolution succeeds and every probe connects. -/
def envAllOpen : ScanEnv :=
  { resolve := Except.ok "93.184.216.34",
    probe := fun _ => ConnectOutcome.code 0,
    futureExc := fun _ => false }

/-- Environment in which name resolution fails. -/
def envUnresolved : ScanEnv :=
  { resolve := Except.error "Name or service not known",
    probe := fun _ => ConnectOutcome.code 0,
    futureExc := fun _ => false }

/-- Environment in which exactly ports 80 and 443 accept the connection and
every other probe is actively refused (`ECONNREFUSED` = errno 111). -/
def envWeb : ScanEnv :=
  { resolve := Except.ok "93.184.216.34",
    probe := fun p => if p = 80 ∨ p = 443 then ConnectOutcome.code 0
                      else ConnectOutcome.code 111,
    futureExc := fun _ => false }

/-- The report `scan_ports` produces on ports 1-3 under `envAllOpen`. -/
def repAllOpen13 : ScanReport :=
  { success := true, host := "h", target_ip := "93.184.216.34",
    start_port := 1, end_port := 3,
    open_ports := [1, 2, 3], closed_ports := [], filtered_ports := [],
    total_ports_scanned := 3, timeout := 1, error := none }

/-- Environment in which every probe connects but every `future.result()`
call raises. -/
def envAllRaise : ScanEnv :=
  { resolve := Except.ok "93.184.216.34",
    probe := fun _ => ConnectOutcome.code 0,
    futureExc := fun _ => true }

/-- The report `scan_ports` produces on ports 1-3 under `envAllRaise`. -/
def repAllRaise13 : ScanReport :=
  { success := true, host := "h", target_ip := "93.184.216.34",
    start_port := 1, end_port := 3,
    open_ports := [], closed_ports := [], filtered_ports := [1, 2, 3],
    total_ports_scanned := 3, timeout := 1, error := none }

/-- The report `_scan_port_list` produces on the common ports under
`envWeb` (only 80 and 443 open; everything else refused). -/
def repWebCommon : ListReport :=
  { success := true, host := "web.example", target_ip := "93.184.216.34",
    open_ports := [80, 443],
    closed_ports := [21, 22, 23, 25, 53, 110, 143, 993, 995, 1433, 3306, 3389,
                     5432, 5900, 6379, 8080, 8443, 27017],
    filtered_ports := [],
    total_ports_scanned := 20, timeout := 1, error := none }

/-- The `open_services` annotation for `repWebCommon`. -/
def webServices : List ServiceInfo :=
  [{ port := 80, service := "HTTP", status := "open" },
   { port := 443, service := "HTTPS", status := "open" }]

/-! ## Derived characterizations -/

/-- The classification that the collection loop of `scan_ports` assigns to a
port: `"filtered"` when its `future.result()` raises, otherwise the status
string returned by `_scan_single_port`. -/
def bucketOf (env : ScanEnv) (p : Int) : String :=
  if env.futureExc p then "filtered" else scan_single_port (env.probe p)

/-- The classification `_scan_port_list` assigns to a port: the status string
returned by the direct `_scan_single_port` call. -/
def bucketSeq (env : ScanEnv) (p : Int) : String :=
  scan_single_port (env.probe p)

theorem scan_single_port_cases (oc : ConnectOutcome) :
    scan_single_port oc = "open" ∨ scan_single_port oc = "closed" ∨
      scan_single_port oc = "filtered" := by
  cases oc with
  | code n => cases n <;> simp [scan_single_port]
  | timeoutExc => simp [scan_single_port]
  | exc => simp [scan_single_port]

theorem bucketOf_cases (env : ScanEnv) (p : Int) :
    bucketOf env p = "open" ∨ bucketOf env p = "closed" ∨
      bucketOf env p = "filtered" := by
  unfold bucketOf
  by_cases h : env.futureExc p
  · simp [h]
  · simp [h]
    exact scan_single_port_cases _

theorem foldl_collectOne (env : ScanEnv) (order : List Int) (b : Buckets) :
    order.foldl (collectOne env) b =
      ⟨b.opens ++ order.filter (fun p => decide (bucketOf env p = "open")),
       b.closeds ++ order.filter (fun p => decide (bucketOf env p = "closed")),
       b.filtereds ++ order.filter (fun p => decide (bucketOf env p = "filtered"))⟩ := by
  induction order generalizing b with
  | nil => simp
  | cons p order ih =>
    rw [List.foldl_cons, ih]
    by_cases hf : env.futureExc p
    · simp [collectOne, bucketOf, hf, List.filter_cons]
    · rcases scan_single_port_cases (env.probe p) with h | h | h <;>
        simp [collectOne, bucketOf, hf, h, List.filter_cons]

theorem collectAll_opens (env : ScanEnv) (order : List Int) :
    (collectAll env order).opens =
      order.filter (fun p => decide (bucketOf env p = "open")) := by
  rw [collectAll, foldl_collectOne]
  rfl

theorem collectAll_closeds (env : ScanEnv) (order : List Int) :
    (collectAll env order).closeds =
      order.filter (fun p => decide (bucketOf env p = "closed")) := by
  rw [collectAll, foldl_collectOne]
  rfl

theorem collectAll_filtereds (env : ScanEnv) (order : List Int) :
    (collectAll env order).filtereds =
      order.filter (fun p => decide (bucketOf env p = "filtered")) := by
  rw [collectAll, foldl_collectOne]
  rfl

theorem foldl_collectOneSeq (env : ScanEnv) (ports : List Int) (b : Buckets) :
    ports.foldl (collectOneSeq env) b =
      ⟨b.opens ++ ports.filter (fun p => decide (bucketSeq env p = "open")),
       b.closeds ++ ports.filter (fun p => decide (bucketSeq env p = "closed")),
       b.filtereds ++ ports.filter (fun p => decide (bucketSeq env p = "filtered"))⟩ := by
  induction ports generalizing b with
  | nil => simp
  | cons p ports ih =>
    rw [List.foldl_cons, ih]
    rcases scan_single_port_cases (env.probe p) with h | h | h <;>
      simp [collectOneSeq, bucketSeq, h, List.filter_cons]

theorem collectSeq_opens (env : ScanEnv) (ports : List Int) :
    (collectSeq env ports).opens =
      ports.filter (fun p => decide (bucketSeq env p = "open")) := by
  rw [collectSeq, foldl_collectOneSeq]
  rfl

theorem collectSeq_closeds (env : ScanEnv) (ports : List Int) :
    (collectSeq env ports).closeds =
      ports.filter (fun p => decide (bucketSeq env p = "closed")) := by
  rw [collectSeq, foldl_collectOneSeq]
  rfl

theorem collectSeq_filtereds (env : ScanEnv) (ports : List Int) :
    (collectSeq env ports).filtereds =
      ports.filter (fun p => decide (bucketSeq env p = "filtered")) := by
  rw [collectSeq, foldl_collectOneSeq]
  rfl

/-! ## Sorting and port-range facts -/

theorem pySort_perm (l : List Int) : List.Perm (pySort l) l :=
  List.perm_insertionSort _ l

theorem mem_pySort {a : Int} {l : List Int} : a ∈ pySort l ↔ a ∈ l :=
  (pySort_perm l).mem_iff

theorem pySort_length (l : List Int) : (pySort l).length = l.length :=
  (pySort_perm l).length_eq

theorem pySort_sorted (l : List Int) : (pySort l).Sorted (· ≤ ·) :=
  List.sorted_insertionSort _ l

theorem pySort_nodup {l : List Int} (h : l.Nodup) : (pySort l).Nodup :=
  (pySort_perm l).nodup_iff.mpr h

theorem pySort_sorted_lt {l : List Int} (h : l.Nodup) :
    (pySort l).Sorted (· < ·) :=
  (pySort_sorted l).lt_of_le (pySort_nodup h)

theorem portRange_length (s e : Int) :
    (portRange s e).length = (e - s + 1).toNat := by
  rw [portRange, List.length_map, List.length_range]

theorem mem_portRange {s e p : Int} :
    p ∈ portRange s e ↔ s ≤ p ∧ p ≤ e := by
  rw [portRange]
  simp only [List.mem_map, List.mem_range]
  constructor
  · rintro ⟨i, hi, rfl⟩
    omega
  · rintro ⟨h1, h2⟩
    exact ⟨(p - s).toNat, by omega, by omega⟩

theorem portRange_nodup (s e : Int) : (portRange s e).Nodup := by
  rw [portRange]
  refine List.Nodup.map ?_ (List.nodup_range _)
  intro a b h
  have h2 : s + (a : Int) = s + (b : Int) := h
  omega

theorem length_filter_three (f : Int → String) (l : List Int)
    (h : ∀ p, f p = "open" ∨ f p = "closed" ∨ f p = "filtered") :
    (l.filter (fun p => decide (f p = "open"))).length +
      (l.filter (fun p => decide (f p = "closed"))).length +
      (l.filter (fun p => decide (f p = "filtered"))).length = l.length := by
  induction l with
  | nil => simp
  | cons p l ih =>
    rcases h p with hp | hp | hp <;>
      simp [List.filter_cons, hp] <;> omega

/-! ## Normal forms of the three operations -/

theorem scan_ports_invalid_start (host : String) (s e t m : Int) (env : ScanEnv)
    (order : List Int) (h : s < 1 ∨ s > 65535) :
    scan_ports host s e t m env order =
      .configError "Start port must be between 1 and 65535" := by
  unfold scan_ports
  rw [if_pos h]

theorem scan_ports_invalid_end (host : String) (s e t m : Int) (env : ScanEnv)
    (order : List Int) (h1 : ¬(s < 1 ∨ s > 65535)) (h2 : e < 1 ∨ e > 65535) :
    scan_ports host s e t m env order =
      .configError "End port must be between 1 and 65535" := by
  unfold scan_ports
  rw [if_neg h1, if_pos h2]

theorem scan_ports_invalid_range (host : String) (s e t m : Int) (env : ScanEnv)
    (order : List Int) (h1 : ¬(s < 1 ∨ s > 65535)) (h2 : ¬(e < 1 ∨ e > 65535))
    (h3 : s > e) :
    scan_ports host s e t m env order =
      .configError "Start port cannot be greater than end port" := by
  unfold scan_ports
  rw [if_neg h1, if_neg h2, if_pos h3]

theorem scan_ports_resolve_error (host : String) (s e t m : Int) (env : ScanEnv)
    (order : List Int) (msg : String)
    (h1 : ¬(s < 1 ∨ s > 65535)) (h2 : ¬(e < 1 ∨ e > 65535)) (h3 : ¬(s > e))
    (hres : env.resolve = Except.error msg) :
    scan_ports host s e t m env order =
      .resolveError ("Failed to resolve hostname " ++ host ++ ": " ++ msg) host := by
  unfold scan_ports
  rw [if_neg h1, if_neg h2, if_neg h3, hres]

theorem scan_ports_success_form (host : String) (s e t m : Int) (env : ScanEnv)
    (ip : String) (order : List Int)
    (h1 : ¬(s < 1 ∨ s > 65535)) (h2 : ¬(e < 1 ∨ e > 65535)) (h3 : ¬(s > e))
    (hm : 1 ≤ m) (hres : env.resolve = Except.ok ip) :
    scan_ports host s e t m env order =
      .report { success := true, host := host, target_ip := ip,
                start_port := s, end_port := e,
                open_ports := pySort (order.filter (fun p => decide (bucketOf env p = "open"))),
                closed_ports := pySort (order.filter (fun p => decide (bucketOf env p = "closed"))),
                filtered_ports := pySort (order.filter (fun p => decide (bucketOf env p = "filtered"))),
                total_ports_scanned := (portRange s e).length,
                timeout := t, error := none } := by
  have hlen : ¬(min m ((portRange s e).length : Int) ≤ 0) := by
    rw [portRange_length]
    omega
  simp only [scan_ports, hres]
  rw [if_neg h1, if_neg h2, if_neg h3, if_neg hlen,
      collectAll_opens, collectAll_closeds, collectAll_filtereds]

theorem scan_ports_pool_failure (host : String) (s e t m : Int) (env : ScanEnv)
    (ip : String) (order : List Int)
    (h1 : ¬(s < 1 ∨ s > 65535)) (h2 : ¬(e < 1 ∨ e > 65535)) (h3 : ¬(s > e))
    (hm : m ≤ 0) (hres : env.resolve = Except.ok ip) :
    scan_ports host s e t m env order =
      .report { success := false, host := host, target_ip := ip,
                start_port := s, end_port := e,
                open_ports := [], closed_ports := [], filtered_ports := [],
                total_ports_scanned := (portRange s e).length,
                timeout := t,
                error := some "Port scanning failed: max_workers must be greater than 0" } := by
  have hlen : min m ((portRange s e).length : Int) ≤ 0 := by
    rw [portRange_length]
    omega
  simp only [scan_ports, hres]
  rw [if_neg h1, if_neg h2, if_neg h3, if_pos hlen]

theorem scan_port_list_resolve_error (host : String) (ports : List Int) (t : Int)
    (env : ScanEnv) (msg : String) (hres : env.resolve = Except.error msg) :
    scan_port_list host ports t env =
      .resolveError ("Failed to resolve hostname " ++ host ++ ": " ++ msg) host := by
  simp only [scan_port_list, hres]

theorem scan_port_list_success_form (host : String) (ports : List Int) (t : Int)
    (env : ScanEnv) (ip : String) (hres : env.resolve = Except.ok ip) :
    scan_port_list host ports t env =
      .report { success := true, host := host, target_ip := ip,
                open_ports := pySort (ports.filter (fun p => decide (bucketSeq env p = "open"))),
                closed_ports := pySort (ports.filter (fun p => decide (bucketSeq env p = "closed"))),
                filtered_ports := pySort (ports.filter (fun p => decide (bucketSeq env p = "filtered"))),
                total_ports_scanned := ports.length, timeout := t, error := none } := by
  simp only [scan_port_list, hres]
  rw [collectSeq_opens, collectSeq_closeds, collectSeq_filtereds]

theorem scan_common_ports_resolve_error (host : String) (t : Int) (env : ScanEnv)
    (msg : String) (hres : env.resolve = Except.error msg) :
    scan_common_ports host t env =
      .resolveError ("Failed to resolve hostname " ++ host ++ ": " ++ msg) host := by
  rw [scan_common_ports,
      scan_port_list_resolve_error host (common_ports.map (fun kv => kv.1)) t env msg hres]

theorem scan_common_ports_success_form (host : String) (t : Int) (env : ScanEnv)
    (ip : String) (hres : env.resolve = Except.ok ip) :
    scan_common_ports host t env =
      .report
        { success := true, host := host, target_ip := ip,
          open_ports := pySort ((common_ports.map (fun kv => kv.1)).filter
            (fun p => decide (bucketSeq env p = "open"))),
          closed_ports := pySort ((common_ports.map (fun kv => kv.1)).filter
            (fun p => decide (bucketSeq env p = "closed"))),
          filtered_ports := pySort ((common_ports.map (fun kv => kv.1)).filter
            (fun p => decide (bucketSeq env p = "filtered"))),
          total_ports_scanned := (common_ports.map (fun kv => kv.1)).length,
          timeout := t, error := none }
        (some ((pySort ((common_ports.map (fun kv => kv.1)).filter
            (fun p => decide (bucketSeq env p = "open")))).map (fun port =>
          { port := port, service := ((common_ports.lookup port).getD "Unknown"),
            status := "open" }))) := by
  rw [scan_common_ports,
      scan_port_list_success_form host (common_ports.map (fun kv => kv.1)) t env ip hres]
  rfl

/-! ## Partition toolkit -/

theorem string_neq_oc : ("open" : String) ≠ "closed" := by decide

theorem string_neq_of : ("open" : String) ≠ "filtered" := by decide

theorem string_neq_cf : ("closed" : String) ≠ "filtered" := by decide

theorem mem_pySort_filter {f : Int → Bool} {l : List Int} {p : Int} :
    p ∈ pySort (l.filter f) ↔ p ∈ l ∧ f p = true := by
  rw [mem_pySort, List.mem_filter]

/-- Abstract partition fact: when each port of `l` (a permutation of the
requested list `ports`) is put into exactly the bucket named by its
classification `f`, the three sorted buckets partition `ports`. -/
theorem partition_of_filters (f : Int → String) (ports l : List Int)
    (hperm : List.Perm l ports)
    (hf : ∀ p, f p = "open" ∨ f p = "closed" ∨ f p = "filtered") :
    (∀ p, p ∈ ports ↔ (p ∈ pySort (l.filter (fun q => decide (f q = "open"))) ∨
        p ∈ pySort (l.filter (fun q => decide (f q = "closed"))) ∨
        p ∈ pySort (l.filter (fun q => decide (f q = "filtered"))))) ∧
    (∀ p, ¬(p ∈ pySort (l.filter (fun q => decide (f q = "open"))) ∧
        p ∈ pySort (l.filter (fun q => decide (f q = "closed"))))) ∧
    (∀ p, ¬(p ∈ pySort (l.filter (fun q => decide (f q = "open"))) ∧
        p ∈ pySort (l.filter (fun q => decide (f q = "filtered"))))) ∧
    (∀ p, ¬(p ∈ pySort (l.filter (fun q => decide (f q = "closed"))) ∧
        p ∈ pySort (l.filter (fun q => decide (f q = "filtered"))))) ∧
    (pySort (l.filter (fun q => decide (f q = "open")))).length +
      (pySort (l.filter (fun q => decide (f q = "closed")))).length +
      (pySort (l.filter (fun q => decide (f q = "filtered")))).length =
      ports.length := by
  refine ⟨?_, ?_, ?_, ?_, ?_⟩
  · intro p
    simp only [mem_pySort_filter, decide_eq_true_eq]
    rw [← hperm.mem_iff (a := p)]
    rcases hf p with h | h | h <;>
      simp [h, string_neq_oc, string_neq_of, string_neq_cf]
  · intro p hmem
    obtain ⟨ho, hc⟩ := hmem
    rw [mem_pySort_filter] at ho hc
    exact string_neq_oc ((of_decide_eq_true ho.2).symm.trans (of_decide_eq_true hc.2))
  · intro p hmem
    obtain ⟨ho, hc⟩ := hmem
    rw [mem_pySort_filter] at ho hc
    exact string_neq_of ((of_decide_eq_true ho.2).symm.trans (of_decide_eq_true hc.2))
  · intro p hmem
    obtain ⟨ho, hc⟩ := hmem
    rw [mem_pySort_filter] at ho hc
    exact string_neq_cf ((of_decide_eq_true ho.2).symm.trans (of_decide_eq_true hc.2))
  · rw [pySort_length, pySort_length, pySort_length,
        (hperm.filter (fun q => decide (f q = "open"))).length_eq,
        (hperm.filter (fun q => decide (f q = "closed"))).length_eq,
        (hperm.filter (fun q => decide (f q = "filtered"))).length_eq]
    exact length_filter_three f ports hf

theorem common_ports_keys_nodup : (common_ports.map (fun kv => kv.1)).Nodup := by
  decide

/-! ## Claim theorems -/

/-- C10: the single-port probe is total at its interface: modelled as a total
function into `String` (every exception path of the source, including a
socket-creation failure inside the probe, is caught by the
`except socket.timeout` / `except Exception` handlers), it returns exactly one
of the three strings `"open"`, `"closed"`, `"filtered"` for every probe
outcome; both exception outcomes map to `"filtered"`. -/
theorem C10_probe_total :
    (∀ oc : ConnectOutcome, scan_single_port oc = "open" ∨
      scan_single_port oc = "closed" ∨ scan_single_port oc = "filtered") ∧
    scan_single_port ConnectOutcome.timeoutExc = "filtered" ∧
    scan_single_port ConnectOutcome.exc = "filtered" :=
  ⟨scan_single_port_cases, rfl, rfl⟩

/-- C2 counterexample: a probe that finds the host unreachable sees the
C-level connect error `EHOSTUNREACH` (errno 113 on Linux) as a nonzero
`connect_ex` return code, and `_scan_single_port` classifies every nonzero
return code as `"closed"` — not `"filtered"` as the claim states for the
host-unreachable condition. -/
theorem C2_counterexample :
    scan_single_port (ConnectOutcome.code 113) = "closed" ∧
      scan_single_port (ConnectOutcome.code 113) ≠ "filtered" :=
  ⟨rfl, by decide⟩

/-- C2 (amended): for every single-port probe, the classification is: the
`connect_ex` call returns `0` (connect succeeded) → `"open"`; `connect_ex`
returns any nonzero error indicator — which is how the C-level connect
reports an active refusal, and equally an unreachable host or an exceeded
deadline when they surface as error codes — → `"closed"`; only a
`socket.timeout` exception or any other exception raised inside the probe
→ `"filtered"`. -/
theorem C2_classification (n : Nat) (hn : n ≠ 0) :
    scan_single_port (ConnectOutcome.code 0) = "open" ∧
    scan_single_port (ConnectOutcome.code n) = "closed" ∧
    scan_single_port ConnectOutcome.timeoutExc = "filtered" ∧
    scan_single_port ConnectOutcome.exc = "filtered" := by
  refine ⟨rfl, ?_, rfl, rfl⟩
  cases n with
  | zero => exact absurd rfl hn
  | succ k => rfl

/-- Witness for C2 (amended) at the concrete refusal code 111. -/
theorem C2_classification_witness :
    scan_single_port (ConnectOutcome.code 111) = "closed" :=
  (C2_classification 111 (by decide)).2.1

/-- C1: for every scan returning a successful report — the range variant
`scan_ports` as well as the common-ports variant `scan_common_ports` — the
lists `open_ports`, `closed_ports`, `filtered_ports` partition the requested
port set exactly: every requested port appears in at least one list, the
lists are pairwise disjoint, and the lengths of the three lists add up to the
cardinality of the requested port set. -/
theorem C1_partition (host : String) (s e t m : Int) (env : ScanEnv)
    (ip : String) (order : List Int) (r : ScanReport)
    (h1 : ¬(s < 1 ∨ s > 65535)) (h2 : ¬(e < 1 ∨ e > 65535)) (h3 : ¬(s > e))
    (hm : 1 ≤ m) (hres : env.resolve = Except.ok ip)
    (horder : List.Perm order (portRange s e))
    (hrep : scan_ports host s e t m env order = ScanResult.report r) :
    ((∀ p, p ∈ portRange s e ↔
        (p ∈ r.open_ports ∨ p ∈ r.closed_ports ∨ p ∈ r.filtered_ports)) ∧
     (∀ p, ¬(p ∈ r.open_ports ∧ p ∈ r.closed_ports)) ∧
     (∀ p, ¬(p ∈ r.open_ports ∧ p ∈ r.filtered_ports)) ∧
     (∀ p, ¬(p ∈ r.closed_ports ∧ p ∈ r.filtered_ports)) ∧
     r.open_ports.length + r.closed_ports.length + r.filtered_ports.length =
       (portRange s e).length) ∧
    (∀ (host2 : String) (t2 : Int) (env2 : ScanEnv) (ip2 : String)
        (r2 : ListReport) (svc : Option (List ServiceInfo)),
      env2.resolve = Except.ok ip2 →
      scan_common_ports host2 t2 env2 = CommonScanResult.report r2 svc →
      ((∀ p, p ∈ common_ports.map (fun kv => kv.1) ↔
          (p ∈ r2.open_ports ∨ p ∈ r2.closed_ports ∨ p ∈ r2.filtered_ports)) ∧
       (∀ p, ¬(p ∈ r2.open_ports ∧ p ∈ r2.closed_ports)) ∧
       (∀ p, ¬(p ∈ r2.open_ports ∧ p ∈ r2.filtered_ports)) ∧
       (∀ p, ¬(p ∈ r2.closed_ports ∧ p ∈ r2.filtered_ports)) ∧
       r2.open_ports.length + r2.closed_ports.length + r2.filtered_ports.length =
         (common_ports.map (fun kv => kv.1)).length)) := by
  constructor
  · rw [scan_ports_success_form host s e t m env ip order h1 h2 h3 hm hres] at hrep
    injection hrep with hr
    subst hr
    exact partition_of_filters (bucketOf env) (portRange s e) order horder
      (bucketOf_cases env)
  · intro host2 t2 env2 ip2 r2 svc hres2 hrep2
    rw [scan_common_ports_success_form host2 t2 env2 ip2 hres2] at hrep2
    injection hrep2 with hr hsvc
    subst hr
    exact partition_of_filters (bucketSeq env2) (common_ports.map (fun kv => kv.1))
      (common_ports.map (fun kv => kv.1)) (List.Perm.refl _)
      (fun p => scan_single_port_cases (env2.probe p))

/-- Witness for C1 at a concrete 3-port scan in which every probe connects:
the three list lengths add up to the cardinality of the requested range. -/
theorem C1_partition_witness :
    ([1, 2, 3] : List Int).length + ([] : List Int).length +
      ([] : List Int).length = (portRange 1 3).length :=
  (C1_partition "h" 1 3 1 100 envAllOpen "93.184.216.34" (portRange 1 3)
    repAllOpen13 (by decide) (by decide) (by decide) (by decide) rfl
    (List.Perm.refl _) rfl).1.2.2.2.2

/-- C5: in every successful scan — range variant `scan_ports` as well as the
port-list scan `_scan_port_list` that backs the common-ports variant — each
of `open_ports`, `closed_ports`, `filtered_ports` is sorted strictly
ascending, for every probe-completion order. -/
theorem C5_sorted (host : String) (s e t m : Int) (env : ScanEnv)
    (ip : String) (order : List Int) (r : ScanReport)
    (h1 : ¬(s < 1 ∨ s > 65535)) (h2 : ¬(e < 1 ∨ e > 65535)) (h3 : ¬(s > e))
    (hm : 1 ≤ m) (hres : env.resolve = Except.ok ip)
    (horder : List.Perm order (portRange s e))
    (hrep : scan_ports host s e t m env order = ScanResult.report r) :
    (r.open_ports.Sorted (· < ·) ∧ r.closed_ports.Sorted (· < ·) ∧
      r.filtered_ports.Sorted (· < ·)) ∧
    (∀ (host2 : String) (ports2 : List Int) (t2 : Int) (env2 : ScanEnv)
        (ip2 : String) (r2 : ListReport),
      ports2.Nodup → env2.resolve = Except.ok ip2 →
      scan_port_list host2 ports2 t2 env2 = ListScanResult.report r2 →
      (r2.open_ports.Sorted (· < ·) ∧ r2.closed_ports.Sorted (· < ·) ∧
        r2.filtered_ports.Sorted (· < ·))) := by
  constructor
  · rw [scan_ports_success_form host s e t m env ip order h1 h2 h3 hm hres] at hrep
    injection hrep with hr
    subst hr
    have hnd : order.Nodup := horder.nodup_iff.mpr (portRange_nodup s e)
    exact ⟨pySort_sorted_lt (hnd.filter _), pySort_sorted_lt (hnd.filter _),
      pySort_sorted_lt (hnd.filter _)⟩
  · intro host2 ports2 t2 env2 ip2 r2 hnd hres2 hrep2
    rw [scan_port_list_success_form host2 ports2 t2 env2 ip2 hres2] at hrep2
    injection hrep2 with hr
    subst hr
    exact ⟨pySort_sorted_lt (hnd.filter _), pySort_sorted_lt (hnd.filter _),
      pySort_sorted_lt (hnd.filter _)⟩

/-- Witness for C5: the concrete scan of ports 1-3 under `envAllOpen` returns
the strictly ascending `open_ports` list `[1, 2, 3]`. -/
theorem C5_sorted_witness : ([1, 2, 3] : List Int).Sorted (· < ·) :=
  (C5_sorted "h" 1 3 1 100 envAllOpen "93.184.216.34" (portRange 1 3)
    repAllOpen13 (by decide) (by decide) (by decide) (by decide) rfl
    (List.Perm.refl _) rfl).1.1

/-- C6: in every successful scan, `total_ports_scanned` equals the
cardinality of the requested port set — `end_port - start_port + 1` for the
range variant, the length of the given port list for `_scan_port_list` — and
every requested port whose probe future raises an exception is still
classified, namely into `filtered_ports`, never dropped. -/
theorem C6_total_counts (host : String) (s e t m : Int) (env : ScanEnv)
    (ip : String) (order : List Int) (r : ScanReport)
    (h1 : ¬(s < 1 ∨ s > 65535)) (h2 : ¬(e < 1 ∨ e > 65535)) (h3 : ¬(s > e))
    (hm : 1 ≤ m) (hres : env.resolve = Except.ok ip)
    (horder : List.Perm order (portRange s e))
    (hrep : scan_ports host s e t m env order = ScanResult.report r) :
    ((r.total_ports_scanned : Int) = e - s + 1) ∧
    (∀ p, p ∈ portRange s e → env.futureExc p = true → p ∈ r.filtered_ports) ∧
    (∀ (host2 : String) (ports2 : List Int) (t2 : Int) (env2 : ScanEnv)
        (ip2 : String) (r2 : ListReport),
      env2.resolve = Except.ok ip2 →
      scan_port_list host2 ports2 t2 env2 = ListScanResult.report r2 →
      r2.total_ports_scanned = ports2.length) := by
  rw [scan_ports_success_form host s e t m env ip order h1 h2 h3 hm hres] at hrep
  injection hrep with hr
  subst hr
  refine ⟨?_, ?_, ?_⟩
  · show (((portRange s e).length : Nat) : Int) = e - s + 1
    rw [portRange_length]
    omega
  · intro p hp hfe
    show p ∈ pySort (order.filter (fun q => decide (bucketOf env q = "filtered")))
    rw [mem_pySort_filter]
    refine ⟨horder.mem_iff.mpr hp, ?_⟩
    simp [bucketOf, hfe]
  · intro host2 ports2 t2 env2 ip2 r2 hres2 hrep2
    rw [scan_port_list_success_form host2 ports2 t2 env2 ip2 hres2] at hrep2
    injection hrep2 with hr2
    subst hr2
    rfl

/-- Witness for C6: the concrete 3-port scan reports
`total_ports_scanned = 3 = 3 - 1 + 1`. -/
theorem C6_total_counts_witness : ((3 : Nat) : Int) = 3 - 1 + 1 :=
  (C6_total_counts "h" 1 3 1 100 envAllOpen "93.184.216.34" (portRange 1 3)
    repAllOpen13 (by decide) (by decide) (by decide) (by decide) rfl
    (List.Perm.refl _) rfl).1

/-- C9: classifications are deterministic in the probe outcome: if two runs
of `scan_ports` (possibly with different probe-completion orders and
different behavior at other ports) observe the same underlying probe outcome
at port `p`, then `p` receives the same classification in both returned
reports. -/
theorem C9_deterministic (host : String) (s e t m : Int) (env1 env2 : ScanEnv)
    (ip : String) (order1 order2 : List Int) (r1 r2 : ScanReport) (p : Int)
    (h1 : ¬(s < 1 ∨ s > 65535)) (h2 : ¬(e < 1 ∨ e > 65535)) (h3 : ¬(s > e))
    (hm : 1 ≤ m)
    (hres1 : env1.resolve = Except.ok ip) (hres2 : env2.resolve = Except.ok ip)
    (horder1 : List.Perm order1 (portRange s e))
    (horder2 : List.Perm order2 (portRange s e))
    (hprobe : env1.probe p = env2.probe p)
    (hfe : env1.futureExc p = env2.futureExc p)
    (hrep1 : scan_ports host s e t m env1 order1 = ScanResult.report r1)
    (hrep2 : scan_ports host s e t m env2 order2 = ScanResult.report r2) :
    (p ∈ r1.open_ports ↔ p ∈ r2.open_ports) ∧
    (p ∈ r1.closed_ports ↔ p ∈ r2.closed_ports) ∧
    (p ∈ r1.filtered_ports ↔ p ∈ r2.filtered_ports) := by
  rw [scan_ports_success_form host s e t m env1 ip order1 h1 h2 h3 hm hres1] at hrep1
  rw [scan_ports_success_form host s e t m env2 ip order2 h1 h2 h3 hm hres2] at hrep2
  injection hrep1 with hr1
  injection hrep2 with hr2
  subst hr1
  subst hr2
  have hb : bucketOf env1 p = bucketOf env2 p := by
    unfold bucketOf
    rw [hprobe, hfe]
  refine ⟨?_, ?_, ?_⟩ <;>
    simp only [mem_pySort_filter, horder1.mem_iff, horder2.mem_iff, hb]

/-- Witness for C9: under two runs with identical probe outcomes but reversed
completion orders, port 2 is open in both reports. -/
theorem C9_deterministic_witness :
    ((2 : Int) ∈ repAllOpen13.open_ports ↔ (2 : Int) ∈ repAllOpen13.open_ports) :=
  (C9_deterministic "h" 1 3 1 100 envAllOpen envAllOpen "93.184.216.34"
    (portRange 1 3) [3, 2, 1] repAllOpen13 repAllOpen13 2
    (by decide) (by decide) (by decide) (by decide) rfl rfl
    (List.Perm.refl _) (by decide) rfl rfl rfl rfl).1

/-- C4: when name resolution fails, the scan fails fast with the single
top-level resolution error and performs zero probes: the returned value is
the resolution-error dict (which carries no port lists by its very shape),
never a report; the outcome does not depend on the probe behavior or on any
completion order, which models that no probe is executed.  The same holds for
the common-ports path through `_scan_port_list`. -/
theorem C4_resolution_failure (host : String) (s e t m : Int) (env : ScanEnv)
    (order : List Int) (msg : String)
    (h1 : ¬(s < 1 ∨ s > 65535)) (h2 : ¬(e < 1 ∨ e > 65535)) (h3 : ¬(s > e))
    (hres : env.resolve = Except.error msg) :
    (scan_ports host s e t m env order =
      ScanResult.resolveError
        ("Failed to resolve hostname " ++ host ++ ": " ++ msg) host) ∧
    (∀ r, scan_ports host s e t m env order ≠ ScanResult.report r) ∧
    (∀ (probe2 : Int → ConnectOutcome) (fexc2 : Int → Bool) (order2 : List Int),
      scan_ports host s e t m ⟨env.resolve, probe2, fexc2⟩ order2 =
        scan_ports host s e t m env order) ∧
    (∀ ports2 : List Int, scan_port_list host ports2 t env =
      ListScanResult.resolveError
        ("Failed to resolve hostname " ++ host ++ ": " ++ msg) host) ∧
    (scan_common_ports host t env =
      CommonScanResult.resolveError
        ("Failed to resolve hostname " ++ host ++ ": " ++ msg) host) ∧
    (∀ (r2 : ListReport) (svc : Option (List ServiceInfo)),
      scan_common_ports host t env ≠ CommonScanResult.report r2 svc) := by
  have hmain := scan_ports_resolve_error host s e t m env order msg h1 h2 h3 hres
  refine ⟨hmain, ?_, ?_, ?_, ?_, ?_⟩
  · intro r hcontra
    rw [hmain] at hcontra
    exact ScanResult.noConfusion hcontra
  · intro probe2 fexc2 order2
    rw [hmain, scan_ports_resolve_error host s e t m ⟨env.resolve, probe2, fexc2⟩
      order2 msg h1 h2 h3 hres]
  · intro ports2
    exact scan_port_list_resolve_error host ports2 t env msg hres
  · exact scan_common_ports_resolve_error host t env msg hres
  · intro r2 svc hcontra
    rw [scan_common_ports_resolve_error host t env msg hres] at hcontra
    exact CommonScanResult.noConfusion hcontra

/-- Witness for C4: scanning ports 1-3 of a host that does not resolve
returns exactly the resolution-error value. -/
theorem C4_resolution_failure_witness :
    scan_ports "bad.invalid" 1 3 1 100 envUnresolved (portRange 1 3) =
      ScanResult.resolveError
        ("Failed to resolve hostname " ++ "bad.invalid" ++ ": " ++
          "Name or service not known") "bad.invalid" :=
  (C4_resolution_failure "bad.invalid" 1 3 1 100 envUnresolved (portRange 1 3)
    "Name or service not known" (by decide) (by decide) (by decide) rfl).1

/-- C3 counterexample: with a valid port range but a non-positive per-probe
timeout (`timeout = -1`), `scan_ports` does not return a configuration
error: name resolution is still attempted (here it fails, and the result is
the resolution error — network activity occurred).  Likewise a non-positive
concurrency bound (`max_threads = 0`) is not rejected up front: resolution
happens first and the failure surfaces afterwards as the generic
`'Port scanning failed: ...'` operation error, not a configuration error. -/
theorem C3_counterexample :
    scan_ports "h" 1 1 (-1) 100 envUnresolved [1] =
      ScanResult.resolveError
        "Failed to resolve hostname h: Name or service not known" "h" ∧
    scan_ports "h" 1 1 1 0 envAllOpen [1] =
      ScanResult.report
        { success := false, host := "h", target_ip := "93.184.216.34",
          start_port := 1, end_port := 1,
          open_ports := [], closed_ports := [], filtered_ports := [],
          total_ports_scanned := 1, timeout := 1,
          error := some "Port scanning failed: max_workers must be greater than 0" } :=
  ⟨rfl, rfl⟩

/-- C3 (amended): an invalid port range (start or end outside 1-65535, or
start > end) is rejected with the corresponding configuration error before
any network activity — the result is the same for every environment and
probe behavior, so neither resolution nor any probe occurs.  A non-positive
per-probe timeout or concurrency bound, however, is NOT validated: with a
valid range, name resolution is attempted for every value of `timeout` and
`max_threads` (in particular for non-positive ones). -/
theorem C3_validation (host : String) (s e t m : Int) (env : ScanEnv)
    (order : List Int) (msg : String) :
    ((s < 1 ∨ s > 65535) → scan_ports host s e t m env order =
      ScanResult.configError "Start port must be between 1 and 65535") ∧
    (¬(s < 1 ∨ s > 65535) → (e < 1 ∨ e > 65535) →
      scan_ports host s e t m env order =
        ScanResult.configError "End port must be between 1 and 65535") ∧
    (¬(s < 1 ∨ s > 65535) → ¬(e < 1 ∨ e > 65535) → s > e →
      scan_ports host s e t m env order =
        ScanResult.configError "Start port cannot be greater than end port") ∧
    (¬(s < 1 ∨ s > 65535) → ¬(e < 1 ∨ e > 65535) → ¬(s > e) →
      env.resolve = Except.error msg →
      scan_ports host s e t m env order =
        ScanResult.resolveError
          ("Failed to resolve hostname " ++ host ++ ": " ++ msg) host) :=
  ⟨scan_ports_invalid_start host s e t m env order,
   scan_ports_invalid_end host s e t m env order,
   scan_ports_invalid_range host s e t m env order,
   scan_ports_resolve_error host s e t m env order msg⟩

/-- Witness for C3 (amended): at `start_port = 0` the configuration error is
returned, and with a valid range and a negative timeout resolution is
attempted. -/
theorem C3_validation_witness :
    scan_ports "h" 0 1 1 100 envAllOpen [1] =
      ScanResult.configError "Start port must be between 1 and 65535" ∧
    scan_ports "h" 1 1 (-1) 0 envUnresolved [1] =
      ScanResult.resolveError
        ("Failed to resolve hostname " ++ "h" ++ ": " ++
          "Name or service not known") "h" :=
  ⟨(C3_validation "h" 0 1 1 100 envAllOpen [1] "x").1 (by decide),
   (C3_validation "h" 1 1 (-1) 0 envUnresolved [1]
      "Name or service not known").2.2.2 (by decide) (by decide) (by decide) rfl⟩

/-- C7: once resolution has succeeded (and the worker pool can be created,
i.e. `max_threads ≥ 1`), per-probe outcomes — timeouts, refusals, socket
errors, even a probe future raising — can never make the operation fail:
`scan_ports` returns a successful report for every probe behavior and
completion order.  Moreover the caller-visible outcome of `scan_ports` is
binary for all inputs: a configuration error, a resolution error, a report
with `success = True` and no error, or a failed operation (`success = False`
with an error message) — nothing else. -/
theorem C7_probe_failures_recovered (host : String) (s e t m : Int)
    (env : ScanEnv) (ip : String) (order : List Int)
    (h1 : ¬(s < 1 ∨ s > 65535)) (h2 : ¬(e < 1 ∨ e > 65535)) (h3 : ¬(s > e))
    (hm : 1 ≤ m) (hres : env.resolve = Except.ok ip) :
    (∃ r, scan_ports host s e t m env order = ScanResult.report r ∧
      r.success = true ∧ r.error = none) ∧
    (∀ (host2 : String) (s2 e2 t2 m2 : Int) (env2 : ScanEnv)
        (order2 : List Int),
      (∃ msg, scan_ports host2 s2 e2 t2 m2 env2 order2 =
        ScanResult.configError msg) ∨
      (∃ msg h, scan_ports host2 s2 e2 t2 m2 env2 order2 =
        ScanResult.resolveError msg h) ∨
      (∃ r, scan_ports host2 s2 e2 t2 m2 env2 order2 = ScanResult.report r ∧
        ((r.success = true ∧ r.error = none) ∨
         (r.success = false ∧ r.error ≠ none)))) := by
  constructor
  · exact ⟨_, scan_ports_success_form host s e t m env ip order h1 h2 h3 hm hres,
      rfl, rfl⟩
  · intro host2 s2 e2 t2 m2 env2 order2
    by_cases hc1 : s2 < 1 ∨ s2 > 65535
    · exact Or.inl ⟨_, scan_ports_invalid_start host2 s2 e2 t2 m2 env2 order2 hc1⟩
    by_cases hc2 : e2 < 1 ∨ e2 > 65535
    · exact Or.inl ⟨_, scan_ports_invalid_end host2 s2 e2 t2 m2 env2 order2 hc1 hc2⟩
    by_cases hc3 : s2 > e2
    · exact Or.inl ⟨_,
        scan_ports_invalid_range host2 s2 e2 t2 m2 env2 order2 hc1 hc2 hc3⟩
    rcases henv : env2.resolve with msg2 | ip2
    · exact Or.inr (Or.inl ⟨_, _,
        scan_ports_resolve_error host2 s2 e2 t2 m2 env2 order2 msg2 hc1 hc2 hc3 henv⟩)
    by_cases hm2 : 1 ≤ m2
    · exact Or.inr (Or.inr ⟨_,
        scan_ports_success_form host2 s2 e2 t2 m2 env2 ip2 order2 hc1 hc2 hc3 hm2 henv,
        Or.inl ⟨rfl, rfl⟩⟩)
    · exact Or.inr (Or.inr ⟨_,
        scan_ports_pool_failure host2 s2 e2 t2 m2 env2 ip2 order2 hc1 hc2 hc3
          (by omega) henv,
        Or.inr ⟨rfl, by simp⟩⟩)

/-- Witness for C7: a concrete run in which every probe raises at the future
level still succeeds — the requested ports all land in `filtered_ports`. -/
theorem C7_probe_failures_recovered_witness :
    scan_ports "h" 1 3 1 100 envAllRaise (portRange 1 3) =
      ScanResult.report repAllRaise13 ∧ repAllRaise13.success = true := by
  obtain ⟨r, hrep, hsucc, herr⟩ :=
    (C7_probe_failures_recovered "h" 1 3 1 100 envAllRaise "93.184.216.34"
      (portRange 1 3) (by decide) (by decide) (by decide) (by decide) rfl).1
  have h3 : ScanResult.report repAllRaise13 = ScanResult.report r := hrep
  injection h3 with h4
  rw [← h4] at hrep hsucc
  exact ⟨hrep, hsucc⟩

/-- C8: the common-ports variant scans the fixed curated 20-entry well-known
port table (with 21→FTP, 22→SSH, 80→HTTP, 443→HTTPS, 3306→MySQL among
them); on success every open port is annotated with the service name looked
up in that static table, falling back to `"Unknown"` for unmapped ports; and
against a host with exactly ports 80 and 443 open, `open_ports` is exactly
`[80, 443]`, annotated `"HTTP"` and `"HTTPS"`. -/
theorem C8_common_ports_variant (host : String) (t : Int) (env : ScanEnv)
    (ip : String) (r : ListReport) (svc : List ServiceInfo)
    (hres : env.resolve = Except.ok ip)
    (hrep : scan_common_ports host t env = CommonScanResult.report r (some svc)) :
    (common_ports.map (fun kv => kv.1) =
      [21, 22, 23, 25, 53, 80, 110, 143, 443, 993, 995, 1433, 3306, 3389,
       5432, 5900, 6379, 8080, 8443, 27017] ∧
     common_ports.length = 20 ∧
     common_ports.lookup 21 = some "FTP" ∧
     common_ports.lookup 22 = some "SSH" ∧
     common_ports.lookup 80 = some "HTTP" ∧
     common_ports.lookup 443 = some "HTTPS" ∧
     common_ports.lookup 3306 = some "MySQL" ∧
     (common_ports.lookup 9999).getD "Unknown" = "Unknown") ∧
    svc = r.open_ports.map (fun port =>
      { port := port, service := (common_ports.lookup port).getD "Unknown",
        status := "open" }) ∧
    scan_common_ports "web.example" 1 envWeb =
      CommonScanResult.report repWebCommon (some webServices) := by
  refine ⟨by decide, ?_, by rfl⟩
  rw [scan_common_ports_success_form host t env ip hres] at hrep
  injection hrep with hr hsvc
  subst hr
  exact (Option.some.inj hsvc).symm

/-- Witness for C8: on the concrete web host, the returned annotation equals
the table lookup over the returned `open_ports` list `[80, 443]`. -/
theorem C8_common_ports_variant_witness :
    webServices = repWebCommon.open_ports.map (fun port =>
      { port := port, service := (common_ports.lookup port).getD "Unknown",
        status := "open" }) :=
  (C8_common_ports_variant "web.example" 1 envWeb "93.184.216.34" repWebCommon
    webServices rfl rfl).2.1

end Netdiag
